import Mathlib

/-!
# Verification of the vnats connection lifecycle

A shallow embedding of `connection.go` from the vnats library: the
`Connection` aggregate, its `Connect` constructor with configuration
options, the logging defaults, the `SubscriptionMode` enumeration, and the
`Close` shutdown orchestration.  Effects of `Close` (subscription drains,
quit-channel sends and closes, the bridge drain, log calls) are recorded as
an explicit event trace; Go channel semantics (a send on a closed channel
panics) are modelled faithfully.
-/

namespace Vnats

/-- One emitted log record: severity level, format string and the variadic
arguments (modelled as strings). -/
structure LogEntry where
  level : Nat
  format : String
  args : List String
deriving DecidableEq, Repr

/-- `LogFunc` from the source: a generic logging function.  Since the model
is pure, a logger returns the list of log records it emits (a no-op logger
returns none). -/
def LogFunc : Type := Nat → String → List String → List LogEntry

/-- `NoOpLogFunc` from the source: drops every log call, emitting nothing. -/
def NoOpLogFunc : LogFunc := fun _ _ _ => []

/-- The five log-level constants declared by `iota` in the source:
trace, debug, info, warn, error. -/
def LogLevelTrace : Nat := 0

/-- `LogLevelDebug = iota` second constant. -/
def LogLevelDebug : Nat := 1

/-- `LogLevelInfo` third `iota` constant. -/
def LogLevelInfo : Nat := 2

/-- `LogLevelWarn` fourth `iota` constant. -/
def LogLevelWarn : Nat := 3

/-- `LogLevelError` fifth `iota` constant. -/
def LogLevelError : Nat := 4

/-- `SubscriptionMode` from the source: an `int`-backed enumeration with
exactly the two `iota` constants. -/
inductive SubscriptionMode where
  | MultipleSubscribersAllowed
  | SingleSubscriberStrictMessageOrder
deriving DecidableEq, Repr

/-- The integer value of each `SubscriptionMode` constant, as fixed by the
`iota` block in the source: `MultipleSubscribersAllowed = 0` (first), then
`SingleSubscriberStrictMessageOrder = 1`. -/
def SubscriptionMode.toInt : SubscriptionMode → Int
  | .MultipleSubscribersAllowed => 0
  | .SingleSubscriberStrictMessageOrder => 1

/-- `CreatePublisherArgs` from the source. -/
structure CreatePublisherArgs where
  StreamName : String := ""
deriving DecidableEq, Repr

/-- `CreateSubscriberArgs` from the source.  The field defaults are the Go
zero values: the zero value of the `int`-backed `Mode` is `0`, which by the
`iota` block is `MultipleSubscribersAllowed` (see
`SubscriptionMode.toInt`). -/
structure CreateSubscriberArgs where
  ConsumerName : String := ""
  Subject : String := ""
  Mode : SubscriptionMode := .MultipleSubscribersAllowed
deriving DecidableEq, Repr

/-- Go errors as used in `connection.go`: either a base error value, or a
wrapping produced by `fmt.Errorf` with the `%w` verb, which keeps the cause
recoverable by unwrapping. -/
inductive Err where
  | base (msg : String)
  | wrap (msg : String) (cause : Err)
deriving DecidableEq, Repr

/-- `errors.Unwrap`: a wrapped error exposes its cause, a base error
exposes nothing. -/
def Err.unwrap : Err → Option Err
  | .base _ => none
  | .wrap _ e => some e

/-- A Go channel of `bool`, as used for the quit signal: the list of values
sent on it so far and whether it has been closed. -/
structure Chan where
  sent : List Bool
  closed : Bool
deriving DecidableEq, Repr

/-- Go send `ch <- v`: appends the value; a send on a closed channel
panics, modelled as `none`. -/
def Chan.send (ch : Chan) (v : Bool) : Option Chan :=
  if ch.closed then none else some { ch with sent := ch.sent ++ [v] }

/-- Go `close(ch)`: marks the channel closed; closing an already closed
channel panics, modelled as `none`. -/
def Chan.closeCh (ch : Chan) : Option Chan :=
  if ch.closed then none else some { ch with closed := true }

/-- The transport `bridge` of the source, restricted to what `Close` uses:
the outcome its `Drain()` method will report (`none` = success). -/
structure Bridge where
  drainErr : Option Err
deriving DecidableEq, Repr

/-- A registered `Subscriber`, restricted to the fields `connection.go`
touches: an identifier (standing for the pointer identity of the Go
`*Subscriber`), the outcome its raw `subscription.Drain()` call will report
(`none` = success), and the `quitSignal` channel. -/
structure Subscriber where
  sid : Nat
  drainErr : Option Err
  quitSignal : Chan
deriving DecidableEq, Repr

/-- `Connection` from the source: the bridge handle (`none` models the nil
interface of a not-yet-connected value), the logger, and the ordered list
of registered subscribers. -/
structure Connection where
  nats : Option Bridge
  log : LogFunc
  subscribers : List Subscriber

/-- `Option` from the source (`func(*Connection)`), renamed to avoid the
Lean core `Option`: a configuration mutation of the connection. -/
def ConnectOption : Type := Connection → Connection

/-- `Connection.applyOptions`: applies each option to the connection, in
argument order. -/
def Connection.applyOptions (c : Connection) (options : List ConnectOption) : Connection :=
  options.foldl (fun c option => option c) c

/-- `WithLogger` from the source: an option that installs the given
logger. -/
def WithLogger (log : LogFunc) : ConnectOption :=
  fun c => { c with log := log }

/-- `Connect` from the source.  The `newNATSBridge` factory (defined
outside `connection.go`) is passed as a parameter.  The connection starts
with the no-op logger, options are applied, then the factory is consulted
with the resulting logger; on factory failure the error is wrapped and no
connection is returned. -/
def Connect (newNATSBridge : List String → LogFunc → Except Err Bridge)
    (servers : List String) (options : List ConnectOption) : Except Err Connection :=
  let conn : Connection := { nats := none, log := NoOpLogFunc, subscribers := [] }
  let conn := conn.applyOptions options
  match newNATSBridge servers conn.log with
  | .error err => .error (Err.wrap "NATS Connection could not be created" err)
  | .ok b => .ok { conn with nats := some b }

/-- Observable events of a `Close` run, identifying subscribers by their
`sid`. -/
inductive Event where
  | subDrain (sid : Nat)
  | quitSend (sid : Nat)
  | quitClose (sid : Nat)
  | bridgeDrain
  | logged (entry : LogEntry)
deriving DecidableEq, Repr

/-- Whether an event is a log record. -/
def Event.isLog : Event → Bool
  | .logged _ => true
  | _ => false

/-- How the subscriber loop of `Close` ended: normally, with the first
drain error (returned immediately by the Go code), or in a panic (send or
close on a closed channel). -/
inductive LoopExit where
  | done
  | errored (e : Err)
  | panicked
deriving DecidableEq, Repr

/-- The subscriber loop of `Close`: for each subscriber in list order,
drain its raw subscription (returning the error immediately on failure),
then send `true` on its quit channel, then close that channel.  Returns
the events in order, the subscriber list with the channel mutations
applied up to the exit point, and how the loop ended. -/
def closeSubs : List Subscriber → List Event × List Subscriber × LoopExit
  | [] => ([], [], .done)
  | sub :: rest =>
    match sub.drainErr with
    | some e => ([Event.subDrain sub.sid], sub :: rest, .errored e)
    | none =>
      match sub.quitSignal.send true with
      | none => ([Event.subDrain sub.sid, Event.quitSend sub.sid], sub :: rest, .panicked)
      | some ch1 =>
        match ch1.closeCh with
        | none =>
          ([Event.subDrain sub.sid, Event.quitSend sub.sid, Event.quitClose sub.sid],
            { sub with quitSignal := ch1 } :: rest, .panicked)
        | some ch2 =>
          let r := closeSubs rest
          (Event.subDrain sub.sid :: Event.quitSend sub.sid :: Event.quitClose sub.sid :: r.1,
            { sub with quitSignal := ch2 } :: r.2.1, r.2.2)

/-- The overall result of a `Close` call. -/
inductive CloseResult where
  | ok
  | errored (e : Err)
  | panicked
deriving DecidableEq, Repr

/-- A complete run of `Close`: the event trace, the returned result, and
the connection state (with channel mutations) when the run ended. -/
structure CloseRun where
  trace : List Event
  result : CloseResult
  conn : Connection

/-- `Connection.Close` from the source: log, run the subscriber loop
(fail fast on the first drain error), and only when every subscriber was
drained, log again and drain the bridge, wrapping a bridge drain failure. -/
def Connection.Close (c : Connection) : CloseRun :=
  let tr0 := (c.log LogLevelTrace "Draining and closing open subscriptions.." []).map Event.logged
  let r := closeSubs c.subscribers
  let c' : Connection := { c with subscribers := r.2.1 }
  match r.2.2 with
  | .errored e => { trace := tr0 ++ r.1, result := .errored e, conn := c' }
  | .panicked => { trace := tr0 ++ r.1, result := .panicked, conn := c' }
  | .done =>
    let tr1 := (c.log LogLevelTrace "Closed all open subscriptions." []).map Event.logged
    let tr2 := (c.log LogLevelTrace "Closing NATS Connection..." []).map Event.logged
    match c.nats with
    | none =>
      { trace := tr0 ++ r.1 ++ tr1 ++ tr2, result := .panicked, conn := c' }
    | some b =>
      match b.drainErr with
      | some e =>
        { trace := tr0 ++ r.1 ++ tr1 ++ tr2 ++ [Event.bridgeDrain],
          result := .errored (Err.wrap "NATS Connection could not be closed" e), conn := c' }
      | none =>
        let tr3 := (c.log LogLevelInfo "NATS Connection closed." []).map Event.logged
        { trace := tr0 ++ r.1 ++ tr1 ++ tr2 ++ [Event.bridgeDrain] ++ tr3,
          result := .ok, conn := c' }

/-- The trace with log records removed: the effectful events only. -/
def nonLogTrace (tr : List Event) : List Event :=
  tr.filter (fun e => !e.isLog)

/-- The three effectful events `Close` performs for one successfully
drained subscriber, in order. -/
def shutdownBlock (s : Subscriber) : List Event :=
  [Event.subDrain s.sid, Event.quitSend s.sid, Event.quitClose s.sid]

/-- The per-subscriber shutdown blocks of a subscriber list, concatenated
in list order. -/
def blocksFlat : List Subscriber → List Event
  | [] => []
  | s :: rest => shutdownBlock s ++ blocksFlat rest

/-- The state of a subscriber after `Close` handled it: `true` sent on the
quit channel, then the channel closed. -/
def afterQuit (s : Subscriber) : Subscriber :=
  { s with quitSignal := { sent := s.quitSignal.sent ++ [true], closed := true } }

/-- When every subscriber drains cleanly and has an open quit channel, the
loop emits exactly the per-subscriber blocks in list order, puts each
channel into state sent-then-closed, and finishes normally. -/
lemma closeSubs_ok (subs : List Subscriber)
    (h : ∀ s ∈ subs, s.drainErr = none ∧ s.quitSignal.closed = false) :
    closeSubs subs = (blocksFlat subs, subs.map afterQuit, .done) := by
  induction subs with
  | nil => simp [closeSubs, blocksFlat]
  | cons sub rest ih =>
    have hs := h sub (List.mem_cons_self _ _)
    have hr : ∀ s ∈ rest, s.drainErr = none ∧ s.quitSignal.closed = false :=
      fun s hmem => h s (List.mem_cons_of_mem _ hmem)
    simp [closeSubs, hs.1, Chan.send, hs.2, Chan.closeCh, ih hr, blocksFlat,
      shutdownBlock, afterQuit]

/-- When the subscribers before `sFail` drain cleanly with open quit
channels and the drain of `sFail` errors, the loop stops at the failing
drain: its events are the clean blocks followed by only the failing drain
call, the failing and later subscribers are untouched, and the first error
is returned. -/
lemma closeSubs_err (pre : List Subscriber) (sFail : Subscriber)
    (post : List Subscriber) (e : Err)
    (hpre : ∀ s ∈ pre, s.drainErr = none ∧ s.quitSignal.closed = false)
    (hfail : sFail.drainErr = some e) :
    closeSubs (pre ++ sFail :: post) =
      (blocksFlat pre ++ [Event.subDrain sFail.sid],
        pre.map afterQuit ++ sFail :: post, .errored e) := by
  induction pre with
  | nil => simp [closeSubs, hfail, blocksFlat]
  | cons sub rest ih =>
    have hs := hpre sub (List.mem_cons_self _ _)
    have hr : ∀ s ∈ rest, s.drainErr = none ∧ s.quitSignal.closed = false :=
      fun s hmem => hpre s (List.mem_cons_of_mem _ hmem)
    simp [closeSubs, hs.1, Chan.send, hs.2, Chan.closeCh, ih hr, blocksFlat,
      shutdownBlock, afterQuit]

/-- Filtering out log records distributes over trace concatenation. -/
lemma nonLogTrace_append (a b : List Event) :
    nonLogTrace (a ++ b) = nonLogTrace a ++ nonLogTrace b :=
  List.filter_append a b

/-- A trace consisting only of log records filters to nothing. -/
lemma nonLogTrace_logged (l : List LogEntry) :
    nonLogTrace (l.map Event.logged) = [] := by
  induction l with
  | nil => rfl
  | cons x xs ih =>
    unfold nonLogTrace at ih ⊢
    simp [List.filter_cons, Event.isLog, ih]

/-- Shutdown blocks contain no log records, so the filter keeps them. -/
lemma nonLogTrace_blocksFlat (subs : List Subscriber) :
    nonLogTrace (blocksFlat subs) = blocksFlat subs := by
  induction subs with
  | nil => rfl
  | cons s rest ih =>
    unfold nonLogTrace at ih ⊢
    simp only [blocksFlat, List.filter_append, ih]
    rfl

/-- The empty trace filters to itself. -/
lemma nonLogTrace_nil : nonLogTrace [] = [] :=
  rfl

/-- The bridge drain event survives the log filter. -/
lemma nonLogTrace_bridge : nonLogTrace [Event.bridgeDrain] = [Event.bridgeDrain] :=
  rfl

/-- The log filter keeps a leading bridge drain event. -/
lemma nonLogTrace_cons_bridge (tr : List Event) :
    nonLogTrace (Event.bridgeDrain :: tr) = Event.bridgeDrain :: nonLogTrace tr := by
  unfold nonLogTrace
  simp [List.filter_cons, Event.isLog]

/-- Shutdown blocks never contain the bridge drain event. -/
lemma bridgeDrain_not_mem_blocksFlat (subs : List Subscriber) :
    Event.bridgeDrain ∉ blocksFlat subs := by
  induction subs with
  | nil => simp [blocksFlat]
  | cons s rest ih => simp [blocksFlat, shutdownBlock, ih]

/-- Log records are never the bridge drain event. -/
lemma bridgeDrain_not_mem_logged (l : List LogEntry) :
    Event.bridgeDrain ∉ l.map Event.logged := by
  simp

/-- C1: for a connection whose registered subscribers all drain cleanly
(with open quit channels), the effectful trace of `Close` is exactly the
per-subscriber blocks [subscription drain, quit send, quit-channel close]
concatenated in list order, followed by the single bridge drain: each
subscriber is handled in turn in that internal order, and the bridge drain
happens only after every subscriber has been drained, never before. -/
theorem close_subscribers_in_order_then_bridge (c : Connection) (b : Bridge)
    (hnats : c.nats = some b)
    (hsubs : ∀ s ∈ c.subscribers, s.drainErr = none ∧ s.quitSignal.closed = false) :
    nonLogTrace c.Close.trace = blocksFlat c.subscribers ++ [Event.bridgeDrain] := by
  cases hb : b.drainErr with
  | none =>
    simp [Connection.Close, closeSubs_ok c.subscribers hsubs, hnats, hb,
      nonLogTrace_append, nonLogTrace_logged, nonLogTrace_blocksFlat,
      nonLogTrace_bridge, nonLogTrace_cons_bridge, nonLogTrace_nil]
  | some e =>
    simp [Connection.Close, closeSubs_ok c.subscribers hsubs, hnats, hb,
      nonLogTrace_append, nonLogTrace_logged, nonLogTrace_blocksFlat,
      nonLogTrace_bridge, nonLogTrace_cons_bridge, nonLogTrace_nil]

/-- A bridge whose drain succeeds, for concrete instantiations. -/
def bridgeOK : Bridge := { drainErr := none }

/-- A live subscriber with a fresh quit channel and a clean drain. -/
def liveSub (n : Nat) : Subscriber :=
  { sid := n, drainErr := none, quitSignal := { sent := [], closed := false } }

/-- A connection with two live subscribers over a healthy bridge. -/
def connTwoLive : Connection :=
  { nats := some bridgeOK, log := NoOpLogFunc, subscribers := [liveSub 0, liveSub 1] }

/-- Witness for C1: on a concrete connection with two live subscribers the
effectful trace is drain 0, quit-send 0, quit-close 0, drain 1, quit-send
1, quit-close 1, bridge drain. -/
theorem close_subscribers_in_order_then_bridge_witness :
    nonLogTrace (Connection.Close connTwoLive).trace =
      [Event.subDrain 0, Event.quitSend 0, Event.quitClose 0,
        Event.subDrain 1, Event.quitSend 1, Event.quitClose 1, Event.bridgeDrain] := by
  have h := close_subscribers_in_order_then_bridge connTwoLive bridgeOK rfl (by decide)
  simpa [connTwoLive, liveSub, blocksFlat, shutdownBlock] using h

/-- A single non-log event filters to itself (subscription drain case). -/
lemma nonLogTrace_single_subDrain (n : Nat) :
    nonLogTrace [Event.subDrain n] = [Event.subDrain n] :=
  rfl

/-- C2: when the subscribers before `sFail` drain cleanly and the drain of
`sFail` fails with `e`, `Close` returns exactly that first error: the
effectful trace consists of the full shutdown blocks of the earlier
subscribers followed by only the failing drain call — so no later
subscriber is drained, no quit signal is sent to the failing or any later
subscriber — and the bridge drain never appears in the trace. -/
theorem close_failfast_on_subscriber_drain (c : Connection)
    (pre post : List Subscriber) (sFail : Subscriber) (e : Err)
    (hsplit : c.subscribers = pre ++ sFail :: post)
    (hpre : ∀ s ∈ pre, s.drainErr = none ∧ s.quitSignal.closed = false)
    (hfail : sFail.drainErr = some e) :
    c.Close.result = .errored e ∧
    nonLogTrace c.Close.trace = blocksFlat pre ++ [Event.subDrain sFail.sid] ∧
    Event.bridgeDrain ∉ c.Close.trace := by
  refine ⟨?_, ?_, ?_⟩ <;>
    simp [Connection.Close, hsplit, closeSubs_err pre sFail post e hpre hfail,
      nonLogTrace_append, nonLogTrace_logged, nonLogTrace_blocksFlat,
      nonLogTrace_nil, nonLogTrace_single_subDrain,
      bridgeDrain_not_mem_blocksFlat, bridgeDrain_not_mem_logged]

/-- A subscriber whose raw subscription drain reports an error. -/
def failingSub : Subscriber :=
  { sid := 7, drainErr := some (Err.base "drain failed"),
    quitSignal := { sent := [], closed := false } }

/-- A connection with one live subscriber followed by one whose drain
fails, over a healthy bridge. -/
def connWithFailingSub : Connection :=
  { nats := some bridgeOK, log := NoOpLogFunc, subscribers := [liveSub 0, failingSub] }

/-- Witness for C2: on the concrete connection the run returns the failing
drain error, the effectful trace stops at the failing drain call, and the
bridge drain never happens. -/
theorem close_failfast_on_subscriber_drain_witness :
    (Connection.Close connWithFailingSub).result = .errored (Err.base "drain failed") ∧
    nonLogTrace (Connection.Close connWithFailingSub).trace =
      [Event.subDrain 0, Event.quitSend 0, Event.quitClose 0, Event.subDrain 7] ∧
    Event.bridgeDrain ∉ (Connection.Close connWithFailingSub).trace := by
  have h := close_failfast_on_subscriber_drain connWithFailingSub
    [liveSub 0] [] failingSub (Err.base "drain failed") rfl (by decide) rfl
  simpa [blocksFlat, shutdownBlock, liveSub, failingSub] using h

/-- C3: when the bridge factory fails on the logger obtained after all
options were applied (so options run before bridge creation), `Connect`
returns an error value wrapping the factory failure — the `Except.error`
result carries no connection at all — and the original cause is
recoverable by unwrapping. -/
theorem connect_wraps_bridge_failure
    (newNATSBridge : List String → LogFunc → Except Err Bridge)
    (servers : List String) (options : List ConnectOption) (e : Err)
    (hfail : newNATSBridge servers
      (Connection.applyOptions
        { nats := none, log := NoOpLogFunc, subscribers := [] } options).log = .error e) :
    Connect newNATSBridge servers options =
      .error (Err.wrap "NATS Connection could not be created" e) ∧
    (Err.wrap "NATS Connection could not be created" e).unwrap = some e := by
  constructor
  · simp [Connect, hfail]
  · rfl

/-- Witness for C3: a factory that rejects every request makes `Connect`
return the wrapped error. -/
theorem connect_wraps_bridge_failure_witness :
    Connect (fun _ _ => .error (Err.base "no reachable server")) ["nats://demo"] [] =
      .error (Err.wrap "NATS Connection could not be created" (Err.base "no reachable server")) ∧
    (Err.wrap "NATS Connection could not be created" (Err.base "no reachable server")).unwrap =
      some (Err.base "no reachable server") :=
  connect_wraps_bridge_failure (fun _ _ => .error (Err.base "no reachable server"))
    ["nats://demo"] [] (Err.base "no reachable server") rfl

/-- Any successful `Connect` carries the logger obtained by applying the
options, in order, to the initial connection (whose logger is the no-op
default). -/
lemma connect_ok_log (factory : List String → LogFunc → Except Err Bridge)
    (servers : List String) (options : List ConnectOption) (conn : Connection)
    (h : Connect factory servers options = .ok conn) :
    conn.log = (Connection.applyOptions
      { nats := none, log := NoOpLogFunc, subscribers := [] } options).log := by
  simp only [Connect] at h
  cases hb : factory servers (Connection.applyOptions
      { nats := none, log := NoOpLogFunc, subscribers := [] } options).log with
  | error e => rw [hb] at h; exact absurd h (by simp)
  | ok b =>
    rw [hb] at h
    simp only [Except.ok.injEq] at h
    rw [← h]

/-- C8: a `Connect` without a `WithLogger` option yields a connection whose
logger is the no-op default, which emits nothing at any level, format and
arguments; a `Connect` with `WithLogger f` installs `f` instead. -/
theorem connect_default_logger_noop
    (factory : List String → LogFunc → Except Err Bridge) (servers : List String)
    (f : LogFunc) (conn1 conn2 : Connection)
    (level : Nat) (format : String) (args : List String)
    (h1 : Connect factory servers [] = .ok conn1)
    (h2 : Connect factory servers [WithLogger f] = .ok conn2) :
    conn1.log = NoOpLogFunc ∧ conn2.log = f ∧ NoOpLogFunc level format args = [] := by
  refine ⟨?_, ?_, rfl⟩
  · simpa [Connection.applyOptions] using connect_ok_log factory servers [] conn1 h1
  · simpa [Connection.applyOptions, WithLogger]
      using connect_ok_log factory servers [WithLogger f] conn2 h2

/-- A bridge factory that always succeeds, for concrete instantiations. -/
def okFactory : List String → LogFunc → Except Err Bridge :=
  fun _ _ => .ok bridgeOK

/-- A logger that records every call as one log entry. -/
def listLogger : LogFunc :=
  fun level format args => [{ level := level, format := format, args := args }]

/-- The connection produced by `Connect okFactory` with no options. -/
def connDefault : Connection :=
  { nats := some bridgeOK, log := NoOpLogFunc, subscribers := [] }

/-- The connection produced by `Connect okFactory` with `WithLogger
listLogger`. -/
def connCustom : Connection :=
  { nats := some bridgeOK, log := listLogger, subscribers := [] }

/-- Witness for C8 at a concrete factory, logger and log call. -/
theorem connect_default_logger_noop_witness :
    connDefault.log = NoOpLogFunc ∧ connCustom.log = listLogger ∧
    NoOpLogFunc LogLevelInfo "hello" [] = [] :=
  connect_default_logger_noop okFactory ["nats://demo"] listLogger
    connDefault connCustom LogLevelInfo "hello" [] rfl rfl

/-- C9: the five log-level constants are strictly increasing in severity
order: trace < debug < info < warn < error. -/
theorem log_levels_strictly_ordered :
    LogLevelTrace < LogLevelDebug ∧ LogLevelDebug < LogLevelInfo ∧
    LogLevelInfo < LogLevelWarn ∧ LogLevelWarn < LogLevelError := by
  decide

/-- C7: `SubscriptionMode` has exactly the two distinct variants, their
`iota` integer values are 0 and 1, and a `CreateSubscriberArgs` whose
`Mode` field is left unset gets the Go zero value 0, which is
`MultipleSubscribersAllowed`. -/
theorem subscription_mode_closed_enum_default (m : SubscriptionMode) :
    (m = .MultipleSubscribersAllowed ∨ m = .SingleSubscriberStrictMessageOrder) ∧
    SubscriptionMode.MultipleSubscribersAllowed ≠ .SingleSubscriberStrictMessageOrder ∧
    SubscriptionMode.toInt .MultipleSubscribersAllowed = 0 ∧
    SubscriptionMode.toInt .SingleSubscriberStrictMessageOrder = 1 ∧
    ({ } : CreateSubscriberArgs).Mode = .MultipleSubscribersAllowed := by
  refine ⟨?_, by decide, rfl, rfl, rfl⟩
  cases m
  · exact Or.inl rfl
  · exact Or.inr rfl

/-- C10: a successful `Connect` with two `WithLogger` options installs the
logger of the last option, and `applyOptions` processes an option list
head first: applying `o :: os` equals applying `os` to the connection
already mutated by `o`. -/
theorem connect_options_applied_in_order
    (factory : List String → LogFunc → Except Err Bridge) (servers : List String)
    (f g : LogFunc) (conn c : Connection) (o : ConnectOption) (os : List ConnectOption)
    (h : Connect factory servers [WithLogger f, WithLogger g] = .ok conn) :
    conn.log = g ∧
    Connection.applyOptions c (o :: os) = Connection.applyOptions (o c) os := by
  refine ⟨?_, rfl⟩
  simpa [Connection.applyOptions, WithLogger]
    using connect_ok_log factory servers [WithLogger f, WithLogger g] conn h

/-- The connection produced by `Connect okFactory` with two `WithLogger`
options: the last one wins. -/
def connLastWins : Connection :=
  { nats := some bridgeOK, log := listLogger, subscribers := [] }

/-- Witness for C10: with `WithLogger NoOpLogFunc` followed by `WithLogger
listLogger`, the installed logger is `listLogger`. -/
theorem connect_options_applied_in_order_witness :
    connLastWins.log = listLogger ∧
    Connection.applyOptions connDefault [WithLogger listLogger] =
      Connection.applyOptions (WithLogger listLogger connDefault) [] :=
  connect_options_applied_in_order okFactory ["nats://demo"] NoOpLogFunc listLogger
    connLastWins connDefault (WithLogger listLogger) [] rfl

/-- A connection over a healthy bridge whose only subscriber fails to
drain. -/
def connRawError : Connection :=
  { nats := some bridgeOK, log := NoOpLogFunc, subscribers := [failingSub] }

/-- Counterexample to C4: when a subscriber drain fails, `Close` returns
the underlying error itself — a base error with nothing to unwrap — not a
wrapping of it, so not every error returned by `Close` wraps its cause. -/
theorem close_error_not_always_wrapped_cex :
    (Connection.Close connRawError).result = .errored (Err.base "drain failed") ∧
    (Err.base "drain failed").unwrap = none :=
  ⟨rfl, rfl⟩

/-- A bridge whose drain reports an error. -/
def bridgeBad : Bridge := { drainErr := some (Err.base "flush timeout") }

/-- A connection with one live subscriber over a bridge whose drain
fails. -/
def connBridgeFails : Connection :=
  { nats := some bridgeBad, log := NoOpLogFunc, subscribers := [liveSub 0] }

/-- C4 amended: an error from the final bridge drain is returned wrapped
(message "NATS Connection could not be closed") with the cause recoverable
by unwrapping, but an error from a subscriber subscription drain is
returned verbatim and unwrapped. -/
theorem close_error_wrapping_amended (c1 c2 : Connection) (b : Bridge)
    (pre post : List Subscriber) (sFail : Subscriber) (eSub eBr : Err)
    (hsplit : c1.subscribers = pre ++ sFail :: post)
    (hpre : ∀ s ∈ pre, s.drainErr = none ∧ s.quitSignal.closed = false)
    (hfail : sFail.drainErr = some eSub)
    (hsubs2 : ∀ s ∈ c2.subscribers, s.drainErr = none ∧ s.quitSignal.closed = false)
    (hnats2 : c2.nats = some b) (hb : b.drainErr = some eBr) :
    c1.Close.result = .errored eSub ∧
    c2.Close.result = .errored (Err.wrap "NATS Connection could not be closed" eBr) ∧
    (Err.wrap "NATS Connection could not be closed" eBr).unwrap = some eBr := by
  refine ⟨?_, ?_, rfl⟩
  · simp [Connection.Close, hsplit, closeSubs_err pre sFail post eSub hpre hfail]
  · simp [Connection.Close, closeSubs_ok c2.subscribers hsubs2, hnats2, hb]

/-- Witness for the amended C4: a failing subscriber drain returns the
base error verbatim; a failing bridge drain returns the wrapped error. -/
theorem close_error_wrapping_amended_witness :
    (Connection.Close connRawError).result = .errored (Err.base "drain failed") ∧
    (Connection.Close connBridgeFails).result =
      .errored (Err.wrap "NATS Connection could not be closed" (Err.base "flush timeout")) ∧
    (Err.wrap "NATS Connection could not be closed" (Err.base "flush timeout")).unwrap =
      some (Err.base "flush timeout") :=
  close_error_wrapping_amended connRawError connBridgeFails bridgeBad
    [] [] failingSub (Err.base "drain failed") (Err.base "flush timeout")
    rfl (by decide) rfl (by decide) rfl rfl

/-- C5: on a successful `Close` over fresh quit channels, every registered
subscriber ends with its quit channel holding exactly the single value
`true` and closed afterwards: the signal is sent exactly once and never
twice. -/
theorem close_quit_signal_exactly_once (c : Connection) (b : Bridge)
    (hsubs : ∀ s ∈ c.subscribers,
      s.drainErr = none ∧ s.quitSignal = { sent := [], closed := false })
    (hnats : c.nats = some b) (hb : b.drainErr = none) :
    c.Close.result = .ok ∧
    c.Close.conn.subscribers =
      c.subscribers.map
        (fun s => { s with quitSignal := { sent := [true], closed := true } }) := by
  have hsubs' : ∀ s ∈ c.subscribers, s.drainErr = none ∧ s.quitSignal.closed = false :=
    fun s hm => ⟨(hsubs s hm).1, by rw [(hsubs s hm).2]⟩
  have hrun := closeSubs_ok c.subscribers hsubs'
  constructor
  · simp [Connection.Close, hrun, hnats, hb]
  · simp only [Connection.Close, hrun, hnats, hb]
    exact List.map_congr_left (fun s hm => by simp [afterQuit, (hsubs s hm).2])

/-- Witness for C5: both quit channels of the two-subscriber connection
end with exactly one `true` sent and then closed. -/
theorem close_quit_signal_exactly_once_witness :
    (Connection.Close connTwoLive).result = .ok ∧
    (Connection.Close connTwoLive).conn.subscribers =
      [{ sid := 0, drainErr := none, quitSignal := { sent := [true], closed := true } },
        { sid := 1, drainErr := none, quitSignal := { sent := [true], closed := true } }] := by
  have h := close_quit_signal_exactly_once connTwoLive bridgeOK (by decide) rfl rfl
  simpa [connTwoLive, liveSub] using h

/-- Two effectful events filter to themselves. -/
lemma nonLogTrace_drain_send_pair (n : Nat) :
    nonLogTrace [Event.subDrain n, Event.quitSend n] =
      [Event.subDrain n, Event.quitSend n] :=
  rfl

/-- C6: `Close` is not safely re-entrant.  A successful `Close` keeps the
very same subscribers registered (none is removed) while leaving every
quit channel closed, so a second `Close` on the resulting connection again
drains the first subscriber raw subscription (a double drain) and then
attempts the quit send on the already closed channel, which panics — it is
not an idempotent no-op. -/
theorem close_not_reentrant (c : Connection) (b : Bridge)
    (s0 : Subscriber) (rest : List Subscriber)
    (hsplit : c.subscribers = s0 :: rest)
    (hok : ∀ s ∈ c.subscribers, s.drainErr = none ∧ s.quitSignal.closed = false)
    (hnats : c.nats = some b) (hb : b.drainErr = none) :
    c.Close.result = .ok ∧
    c.Close.conn.subscribers.map (fun s => (s.sid, s.drainErr)) =
      c.subscribers.map (fun s => (s.sid, s.drainErr)) ∧
    (c.Close.conn.subscribers.all fun s => s.quitSignal.closed) = true ∧
    c.Close.conn.Close.result = .panicked ∧
    nonLogTrace c.Close.conn.Close.trace =
      [Event.subDrain s0.sid, Event.quitSend s0.sid] := by
  have hs0 := hok s0 (by rw [hsplit]; exact List.mem_cons_self _ _)
  have hrun := closeSubs_ok c.subscribers hok
  have hconn : c.Close.conn = { c with subscribers := c.subscribers.map afterQuit } := by
    simp [Connection.Close, hrun, hnats, hb]
  have h2 : closeSubs (c.subscribers.map afterQuit) =
      ([Event.subDrain s0.sid, Event.quitSend s0.sid],
        c.subscribers.map afterQuit, .panicked) := by
    rw [hsplit]
    simp [closeSubs, afterQuit, hs0.1, Chan.send]
  refine ⟨?_, ?_, ?_, ?_, ?_⟩
  · simp [Connection.Close, hrun, hnats, hb]
  · rw [hconn]
    simp [List.map_map]
    exact fun a _ => ⟨rfl, rfl⟩
  · rw [hconn]
    simp [List.all_map, afterQuit]
  · rw [hconn]
    simp [Connection.Close, h2]
  · rw [hconn]
    simp [Connection.Close, h2, nonLogTrace_append, nonLogTrace_logged,
      nonLogTrace_drain_send_pair]

/-- Witness for C6: after closing the two-subscriber connection once, the
same two subscribers are still registered with closed quit channels, and a
second `Close` drains subscriber 0 again and panics at its quit send. -/
theorem close_not_reentrant_witness :
    (Connection.Close connTwoLive).result = .ok ∧
    (Connection.Close connTwoLive).conn.subscribers.map (fun s => (s.sid, s.drainErr)) =
      connTwoLive.subscribers.map (fun s => (s.sid, s.drainErr)) ∧
    ((Connection.Close connTwoLive).conn.subscribers.all
      fun s => s.quitSignal.closed) = true ∧
    (Connection.Close (Connection.Close connTwoLive).conn).result = .panicked ∧
    nonLogTrace (Connection.Close (Connection.Close connTwoLive).conn).trace =
      [Event.subDrain 0, Event.quitSend 0] := by
  have h := close_not_reentrant connTwoLive bridgeOK (liveSub 0) [liveSub 1]
    rfl (by decide) rfl rfl
  simpa [connTwoLive, liveSub] using h

end Vnats
